import Mathlib

/-!
A formal model of the buse-go userspace NBD block-device server
(package `buse`, file `buse.go`), together with theorems about its
wire codec, request dispatch loop and connect/disconnect lifecycle.

Modelling conventions:
* Machine integers (Go `uint32`, `uint64`) are `Nat` with explicit
  bounds (`< 2^32`, `< 2^64`) where overflow matters.
* Byte streams (the socket between the kernel and the protocol loop)
  are `List Nat`; each entry is one byte.  A blocking read of `n`
  bytes either delivers exactly `n` bytes (when the stream holds at
  least `n`) or fails (stream closed / read error).
* Storage backend (`BuseInterface`) is a record of pure functions;
  a `Bool`/`Option` result models the Go `error` return.
* `ioctl` and process-level effects (`log.Fatalf`) are modelled by
  explicit outcome types.
-/

namespace Buse

/-! ### Constants from buse.go (mirroring linux/nbd.h) -/

def NBD_SET_SOCK : Nat := 0xab * 256 + 0
def NBD_SET_BLKSIZE : Nat := 0xab * 256 + 1
def NBD_SET_SIZE : Nat := 0xab * 256 + 2
def NBD_DO_IT : Nat := 0xab * 256 + 3
def NBD_CLEAR_SOCK : Nat := 0xab * 256 + 4
def NBD_CLEAR_QUE : Nat := 0xab * 256 + 5
def NBD_DISCONNECT : Nat := 0xab * 256 + 8
def NBD_SET_FLAGS : Nat := 0xab * 256 + 10

def NBD_CMD_READ : Nat := 0
def NBD_CMD_WRITE : Nat := 1
def NBD_CMD_DISC : Nat := 2
def NBD_CMD_FLUSH : Nat := 3
def NBD_CMD_TRIM : Nat := 4

def NBD_FLAG_SEND_TRIM : Nat := 32

def NBD_REQUEST_MAGIC : Nat := 0x25609513
def NBD_REPLY_MAGIC : Nat := 0x67446698

/-! ### Byte order (the `Endian` global and `init` of buse.go) -/

/-- The two byte orders `encoding/binary` offers. -/
inductive ByteOrder where
  | littleEndian : ByteOrder
  | bigEndian : ByteOrder
deriving DecidableEq

/-- The runtime host-endianness probe of buse.go's `init` function:
`byteList[0]` of the integer `0x1` is `0` exactly on a big-endian
host.  Both branches of the probe assign `binary.BigEndian`. -/
def endianProbe (firstByteOfOne : Nat) : ByteOrder :=
  if firstByteOfOne = 0 then ByteOrder.bigEndian else ByteOrder.bigEndian

/-- The global `Endian` variable.  On a little-endian host the probed
byte is `1`; by `endianProbe_const` the choice of argument is moot. -/
def Endian : ByteOrder := endianProbe 1

theorem endianProbe_const (b : Nat) : endianProbe b = ByteOrder.bigEndian := by
  unfold endianProbe
  split <;> rfl

/-! ### Primitive integer serialization (`encoding/binary`) -/

/-- Serialize a `uint32` in the given byte order (4 bytes). -/
def u32Bytes (bo : ByteOrder) (n : Nat) : List Nat :=
  match bo with
  | ByteOrder.bigEndian =>
      [n / 16777216 % 256, n / 65536 % 256, n / 256 % 256, n % 256]
  | ByteOrder.littleEndian =>
      [n % 256, n / 256 % 256, n / 65536 % 256, n / 16777216 % 256]

/-- Serialize a `uint64` in the given byte order (8 bytes). -/
def u64Bytes (bo : ByteOrder) (n : Nat) : List Nat :=
  match bo with
  | ByteOrder.bigEndian =>
      [n / 72057594037927936 % 256, n / 281474976710656 % 256,
       n / 1099511627776 % 256, n / 4294967296 % 256,
       n / 16777216 % 256, n / 65536 % 256, n / 256 % 256, n % 256]
  | ByteOrder.littleEndian =>
      [n % 256, n / 256 % 256, n / 65536 % 256, n / 16777216 % 256,
       n / 4294967296 % 256, n / 1099511627776 % 256,
       n / 281474976710656 % 256, n / 72057594037927936 % 256]

/-- Deserialize a `uint32` from 4 bytes in the given byte order. -/
def u32OfBytes (bo : ByteOrder) : List Nat → Nat
  | [b0, b1, b2, b3] =>
      match bo with
      | ByteOrder.bigEndian => b0 * 16777216 + b1 * 65536 + b2 * 256 + b3
      | ByteOrder.littleEndian => b3 * 16777216 + b2 * 65536 + b1 * 256 + b0
  | _ => 0

/-- Deserialize a `uint64` from 8 bytes in the given byte order. -/
def u64OfBytes (bo : ByteOrder) : List Nat → Nat
  | [b0, b1, b2, b3, b4, b5, b6, b7] =>
      match bo with
      | ByteOrder.bigEndian =>
          b0 * 72057594037927936 + b1 * 281474976710656 +
          b2 * 1099511627776 + b3 * 4294967296 +
          b4 * 16777216 + b5 * 65536 + b6 * 256 + b7
      | ByteOrder.littleEndian =>
          b7 * 72057594037927936 + b6 * 281474976710656 +
          b5 * 1099511627776 + b4 * 4294967296 +
          b3 * 16777216 + b2 * 65536 + b1 * 256 + b0
  | _ => 0

theorem u32_roundtrip (bo : ByteOrder) (n : Nat) (h : n < 4294967296) :
    u32OfBytes bo (u32Bytes bo n) = n := by
  cases bo <;> simp [u32Bytes, u32OfBytes] <;> omega

theorem u32_roundtrip_w : u32OfBytes ByteOrder.bigEndian
    (u32Bytes ByteOrder.bigEndian 3000000000) = 3000000000 :=
  u32_roundtrip ByteOrder.bigEndian 3000000000 (by decide)

theorem u64_roundtrip (bo : ByteOrder) (n : Nat) (h : n < 18446744073709551616) :
    u64OfBytes bo (u64Bytes bo n) = n := by
  cases bo <;> simp [u64Bytes, u64OfBytes] <;> omega

/-! ### Wire structures (`nbdRequest`, `nbdReply` of buse.go)

Field names mirror the Go struct fields `Magic`, `Type`, `Handle`,
`From`, `Length` and `Error` (lower-cased; `from` is a Lean keyword,
hence `from_`). -/

/-- The fixed-size NBD request header (28 serialized bytes). -/
structure nbdRequest where
  magic : Nat
  type : Nat
  handle : List Nat
  from_ : Nat
  length : Nat
deriving DecidableEq

/-- The fixed-size NBD reply header (16 serialized bytes). -/
structure nbdReply where
  magic : Nat
  error : Nat
  handle : List Nat
deriving DecidableEq

/-- A request a Go `nbdRequest` value can actually hold: `uint32` and
`uint64` fields in range, and an 8-entry byte array as handle. -/
def wfRequest (r : nbdRequest) : Prop :=
  r.magic < 4294967296 ∧ r.type < 4294967296 ∧
  r.handle.length = 8 ∧ (∀ b ∈ r.handle, b < 256) ∧
  r.from_ < 18446744073709551616 ∧ r.length < 4294967296

/-- Model of `binary.Write(bufB, Endian, request)`: serialize the request
header, field by field, in the wire byte order. -/
def encodeRequest (bo : ByteOrder) (r : nbdRequest) : List Nat :=
  u32Bytes bo r.magic ++ u32Bytes bo r.type ++ r.handle ++
  u64Bytes bo r.from_ ++ u32Bytes bo r.length

/-- Model of `binary.Read(bufR, Endian, &request)`: deserialize a request
header from the first 28 bytes of a buffer; an error (modelled as
`none`) occurs exactly when fewer than 28 bytes are available. -/
def decodeRequest (bo : ByteOrder) (bs : List Nat) : Option nbdRequest :=
  if bs.length < 28 then none
  else some
    { magic := u32OfBytes bo (bs.take 4)
      type := u32OfBytes bo ((bs.drop 4).take 4)
      handle := (bs.drop 8).take 8
      from_ := u64OfBytes bo ((bs.drop 16).take 8)
      length := u32OfBytes bo ((bs.drop 24).take 4) }

/-- Model of `binary.Write(bufB, Endian, reply)`: serialize the reply header. -/
def encodeReply (bo : ByteOrder) (rep : nbdReply) : List Nat :=
  u32Bytes bo rep.magic ++ u32Bytes bo rep.error ++ rep.handle

theorem length_u32Bytes (bo : ByteOrder) (n : Nat) :
    (u32Bytes bo n).length = 4 := by
  cases bo <;> rfl

theorem length_u64Bytes (bo : ByteOrder) (n : Nat) :
    (u64Bytes bo n).length = 8 := by
  cases bo <;> rfl

theorem exists_eight (bs : List Nat) (hlen : bs.length = 8) :
    ∃ x0 x1 x2 x3 x4 x5 x6 x7,
      bs = x0 :: x1 :: x2 :: x3 :: x4 :: x5 :: x6 :: [x7] := by
  rcases bs with _ | ⟨x0, _ | ⟨x1, _ | ⟨x2, _ | ⟨x3, _ | ⟨x4, _ |
    ⟨x5, _ | ⟨x6, _ | ⟨x7, _ | ⟨x8, bs⟩⟩⟩⟩⟩⟩⟩⟩⟩ <;> simp_all

theorem decodeRequest_handle_length (bo : ByteOrder) (bs : List Nat)
    (r : nbdRequest) (h : decodeRequest bo bs = some r) :
    r.handle.length = 8 := by
  unfold decodeRequest at h
  split at h
  · exact absurd h (by simp)
  · rename_i hlen
    obtain rfl : _ = r := Option.some.injEq _ _ ▸ h
    simp [List.length_take, List.length_drop]
    omega

theorem request_roundtrip (bo : ByteOrder) (r : nbdRequest) (h : wfRequest r) :
    decodeRequest bo (encodeRequest bo r) = some r := by
  obtain ⟨hm, ht, hh, _hb, hf, hl⟩ := h
  obtain ⟨m, t, hd, f, l⟩ := r
  simp only at hm ht hf hl
  obtain ⟨a0, a1, a2, a3, a4, a5, a6, a7, rfl⟩ := exists_eight hd (by simpa using hh)
  cases bo <;>
    simp [encodeRequest, decodeRequest, u32Bytes, u64Bytes, u32OfBytes,
      u64OfBytes, List.take_succ_cons, List.drop_succ_cons] <;>
    omega

/-! ### Storage backend (`BuseInterface` of buse.go)

The Go interface methods `ReadAt(p, off) error`, `WriteAt(p, off)
error`, `Flush() error`, `Trim(off, length) error` are modelled as
pure functions; `true`/`some` is a `nil` error.  `readAt off len`
returns the contents of the `len`-byte buffer after the call together
with the success flag (the driver may have filled the buffer even
when it reports an error; the handler sends it either way). -/
structure BuseInterface where
  readAt : Nat → Nat → List Nat × Bool
  writeAt : List Nat → Nat → Bool
  flush : Bool
  trim : Nat → Nat → Bool

/-- A blocking read of exactly `n` bytes from the channel
(`fp.Read` on a socket): delivers `n` bytes and the rest of the
stream, or fails when the stream is closed before `n` bytes arrive. -/
def readBytes (n : Nat) (s : List Nat) : Option (List Nat × List Nat) :=
  if n ≤ s.length then some (s.take n, s.drop n) else none

/-- What one dispatched handler did: the bytes it wrote to the
channel, the remaining input stream, the reply value after the call
(the Go handlers mutate `reply` through a pointer), and whether it
returned a non-nil (fatal) error to the loop. -/
structure HandlerOut where
  emitted : List Nat
  rest : List Nat
  reply : nbdReply
  fatal : Bool
deriving DecidableEq

/-- Handler `opDeviceRead`: call `driver.ReadAt(chunk, request.From)`; on
error set `reply.Error = 1`; emit the encoded reply header followed
by the chunk.  Channel write errors are logged, never fatal. -/
def opDeviceRead (bd : BuseInterface) (rest : List Nat)
    (request : nbdRequest) (reply : nbdReply) : HandlerOut :=
  let res := bd.readAt request.from_ request.length
  let reply := if res.2 then reply else { reply with error := 1 }
  ⟨encodeReply Endian reply ++ res.1, rest, reply, false⟩

/-- Handler `opDeviceWrite`: first read `request.Length` payload bytes from
the channel (fatal if this read fails), then call
`driver.WriteAt(chunk, request.From)`; on error set `reply.Error =
1`; emit the encoded reply header only. -/
def opDeviceWrite (bd : BuseInterface) (rest : List Nat)
    (request : nbdRequest) (reply : nbdReply) : HandlerOut :=
  match readBytes request.length rest with
  | none => ⟨[], rest, reply, true⟩
  | some (chunk, rest) =>
    let reply := if bd.writeAt chunk request.from_ then reply
                 else { reply with error := 1 }
    ⟨encodeReply Endian reply, rest, reply, false⟩

/-- Handler `opDeviceDisconnect`: call `driver.Disconnect()` and return nil;
no reply is sent. -/
def opDeviceDisconnect (_bd : BuseInterface) (rest : List Nat)
    (_request : nbdRequest) (reply : nbdReply) : HandlerOut :=
  ⟨[], rest, reply, false⟩

/-- Handler `opDeviceFlush`: call `driver.Flush()`; on error set
`reply.Error = 1`; emit the encoded reply header only. -/
def opDeviceFlush (bd : BuseInterface) (rest : List Nat)
    (_request : nbdRequest) (reply : nbdReply) : HandlerOut :=
  let reply := if bd.flush then reply else { reply with error := 1 }
  ⟨encodeReply Endian reply, rest, reply, false⟩

/-- Handler `opDeviceTrim`: call `driver.Trim(request.From, request.Length)`;
on error set `reply.Error = 1`; emit the encoded reply header only. -/
def opDeviceTrim (bd : BuseInterface) (rest : List Nat)
    (request : nbdRequest) (reply : nbdReply) : HandlerOut :=
  let reply := if bd.trim request.from_ request.length then reply
               else { reply with error := 1 }
  ⟨encodeReply Endian reply, rest, reply, false⟩

/-- The five-entry dispatch table `op` built by `CreateDevice`,
indexed by the operation code; `List.get?` outside the range `0..4`
is `none` (the Go array index would panic). -/
def opTable : List (BuseInterface → List Nat → nbdRequest → nbdReply → HandlerOut) :=
  [opDeviceRead, opDeviceWrite, opDeviceDisconnect, opDeviceFlush, opDeviceTrim]

/-- Outcome of one iteration of the `Connect` request loop. -/
inductive StepResult where
  /-- the header read failed: `Connect` logs and returns nil. -/
  | stopped : StepResult
  /-- the field `request.Type` indexed outside the 5-entry table: Go panics. -/
  | panicked : StepResult
  /-- the handler returned a non-nil error: `Connect` returns it. -/
  | fatal : List Nat → StepResult
  /-- the loop goes on: bytes emitted, remaining input, the reply
  value carried into the next iteration. -/
  | next : List Nat → List Nat → nbdReply → StepResult
deriving DecidableEq

/-- One iteration of the request loop in `Connect`: read a header
from the channel, decode it, set `reply.Handle = request.Handle` and
`reply.Error = 0`, and dispatch through the table.  The `decode =
none` branch is unreachable (the buffer always holds 28 bytes). -/
def connectStep (bd : BuseInterface) (reply0 : nbdReply)
    (input : List Nat) : StepResult :=
  match readBytes 28 input with
  | none => StepResult.stopped
  | some (buf, rest) =>
    match decodeRequest Endian buf with
    | none => StepResult.stopped
    | some request =>
      let reply := { reply0 with handle := request.handle, error := 0 }
      match opTable.get? request.type with
      | none => StepResult.panicked
      | some f =>
        let out := f bd rest request reply
        if out.fatal then StepResult.fatal out.emitted
        else StepResult.next out.emitted out.rest out.reply

/-! ### Disconnect / teardown (`Disconnect`, `startNBDClient`) -/

/-- Observable teardown state of a `BuseDevice`: how many receives on
the unbuffered `disconnect` channel are still pending, and how many
times each teardown action has completed. -/
structure TeardownState where
  receiverBudget : Nat
  signalsSent : Nat
  clearQueCalls : Nat
  clearSockCalls : Nat
  closeSock0Calls : Nat
  closeSock1Calls : Nat
  closeDevCalls : Nat
deriving DecidableEq

/-- Model of `Disconnect`: first send on the unbuffered channel
`bd.disconnect` — this completes only when `startNBDClient` performs
its single pending receive; with no receiver left the send blocks
forever (`none`) and nothing after it runs.  After the send:
`NBD_CLEAR_QUE` and `NBD_CLEAR_SOCK` ioctls (best effort), close both
socketpair ends, close the device file. -/
def disconnectOp (s : TeardownState) : Option TeardownState :=
  if s.receiverBudget = 0 then none
  else some
    { receiverBudget := s.receiverBudget - 1
      signalsSent := s.signalsSent + 1
      clearQueCalls := s.clearQueCalls + 1
      clearSockCalls := s.clearSockCalls + 1
      closeSock0Calls := s.closeSock0Calls + 1
      closeSock1Calls := s.closeSock1Calls + 1
      closeDevCalls := s.closeDevCalls + 1 }

/-- Teardown state at the start of a connect cycle: nothing torn down
yet and exactly one pending receive (the single `<-bd.disconnect` in
`startNBDClient`). -/
def connectTeardown0 : TeardownState := ⟨1, 0, 0, 0, 0, 0, 0⟩

/-! ### Step characterization lemmas -/

theorem Endian_eq : Endian = ByteOrder.bigEndian := rfl

theorem connectStep_read_eq (bd : BuseInterface) (reply0 : nbdReply)
    (input buf rest : List Nat) (req : nbdRequest)
    (h1 : readBytes 28 input = some (buf, rest))
    (h2 : decodeRequest Endian buf = some req)
    (ht : req.type = 0) :
    connectStep bd reply0 input =
      StepResult.next
        (encodeReply Endian
            ⟨reply0.magic, if (bd.readAt req.from_ req.length).2 then 0 else 1,
              req.handle⟩ ++ (bd.readAt req.from_ req.length).1)
        rest
        ⟨reply0.magic, if (bd.readAt req.from_ req.length).2 then 0 else 1,
          req.handle⟩ := by
  obtain ⟨m0, e0, h0⟩ := reply0
  simp only [connectStep, h1, h2, ht, opTable, List.get?]
  cases hres : (bd.readAt req.from_ req.length).2 <;>
    simp [opDeviceRead, hres]

theorem connectStep_write_next (bd : BuseInterface) (reply0 : nbdReply)
    (input buf rest : List Nat) (req : nbdRequest)
    (h1 : readBytes 28 input = some (buf, rest))
    (h2 : decodeRequest Endian buf = some req)
    (ht : req.type = 1) (hp : req.length ≤ rest.length) :
    connectStep bd reply0 input =
      StepResult.next
        (encodeReply Endian
          ⟨reply0.magic,
            if bd.writeAt (rest.take req.length) req.from_ then 0 else 1,
            req.handle⟩)
        (rest.drop req.length)
        ⟨reply0.magic,
          if bd.writeAt (rest.take req.length) req.from_ then 0 else 1,
          req.handle⟩ := by
  obtain ⟨m0, e0, h0⟩ := reply0
  simp only [connectStep, h1, h2, ht, opTable, List.get?]
  cases hres : bd.writeAt (rest.take req.length) req.from_ <;>
    simp [opDeviceWrite, readBytes, hp, hres]

theorem connectStep_write_fatal (bd : BuseInterface) (reply0 : nbdReply)
    (input buf rest : List Nat) (req : nbdRequest)
    (h1 : readBytes 28 input = some (buf, rest))
    (h2 : decodeRequest Endian buf = some req)
    (ht : req.type = 1) (hp : rest.length < req.length) :
    connectStep bd reply0 input = StepResult.fatal [] := by
  obtain ⟨m0, e0, h0⟩ := reply0
  simp only [connectStep, h1, h2, ht, opTable, List.get?]
  simp [opDeviceWrite, readBytes, Nat.not_le.2 hp]

theorem connectStep_flush_eq (bd : BuseInterface) (reply0 : nbdReply)
    (input buf rest : List Nat) (req : nbdRequest)
    (h1 : readBytes 28 input = some (buf, rest))
    (h2 : decodeRequest Endian buf = some req)
    (ht : req.type = 3) :
    connectStep bd reply0 input =
      StepResult.next
        (encodeReply Endian
          ⟨reply0.magic, if bd.flush then 0 else 1, req.handle⟩)
        rest
        ⟨reply0.magic, if bd.flush then 0 else 1, req.handle⟩ := by
  obtain ⟨m0, e0, h0⟩ := reply0
  simp only [connectStep, h1, h2, ht, opTable, List.get?]
  cases hres : bd.flush <;> simp [opDeviceFlush, hres]

theorem connectStep_trim_eq (bd : BuseInterface) (reply0 : nbdReply)
    (input buf rest : List Nat) (req : nbdRequest)
    (h1 : readBytes 28 input = some (buf, rest))
    (h2 : decodeRequest Endian buf = some req)
    (ht : req.type = 4) :
    connectStep bd reply0 input =
      StepResult.next
        (encodeReply Endian
          ⟨reply0.magic, if bd.trim req.from_ req.length then 0 else 1,
            req.handle⟩)
        rest
        ⟨reply0.magic, if bd.trim req.from_ req.length then 0 else 1,
          req.handle⟩ := by
  obtain ⟨m0, e0, h0⟩ := reply0
  simp only [connectStep, h1, h2, ht, opTable, List.get?]
  cases hres : bd.trim req.from_ req.length <;> simp [opDeviceTrim, hres]

theorem encodeReply_handle_bytes (rep : nbdReply) (tail : List Nat)
    (h : rep.handle.length = 8) :
    ((encodeReply Endian rep ++ tail).drop 8).take 8 = rep.handle := by
  obtain ⟨m, e, hd⟩ := rep
  simp only at h
  obtain ⟨a0, a1, a2, a3, a4, a5, a6, a7, rfl⟩ := exists_eight hd h
  simp [encodeReply, Endian_eq, u32Bytes]

/-- Which backend call the dispatched request triggers, and whether
it reports an error (`true` = the Go method returned a non-nil
error).  For a WRITE the backend sees the first `length` payload
bytes read from the channel. -/
def backendCallFails (bd : BuseInterface) (req : nbdRequest)
    (rest : List Nat) : Bool :=
  if req.type = NBD_CMD_READ then !(bd.readAt req.from_ req.length).2
  else if req.type = NBD_CMD_WRITE then !(bd.writeAt (rest.take req.length) req.from_)
  else if req.type = NBD_CMD_FLUSH then !bd.flush
  else if req.type = NBD_CMD_TRIM then !(bd.trim req.from_ req.length)
  else false

/-! ### Sample values used by the witnesses -/

def sampleDriver : BuseInterface :=
  ⟨fun _ len => (List.replicate len 7, true), fun _ _ => true, false,
    fun _ _ => true⟩

def sampleFlushReq : nbdRequest :=
  ⟨NBD_REQUEST_MAGIC, NBD_CMD_FLUSH, [1, 2, 3, 4, 5, 6, 7, 8], 0, 0⟩

def sampleFlushInput : List Nat := encodeRequest Endian sampleFlushReq

def sampleReadReq : nbdRequest :=
  ⟨NBD_REQUEST_MAGIC, NBD_CMD_READ, [1, 2, 3, 4, 5, 6, 7, 8], 4096, 4⟩

def sampleWriteReq : nbdRequest :=
  ⟨NBD_REQUEST_MAGIC, NBD_CMD_WRITE, [8, 7, 6, 5, 4, 3, 2, 1], 0, 4⟩

def sampleWriteInput : List Nat := encodeRequest Endian sampleWriteReq

def sampleBadReq : nbdRequest :=
  ⟨NBD_REQUEST_MAGIC, 9, [0, 0, 0, 0, 0, 0, 0, 0], 0, 0⟩

def sampleBadInput : List Nat := encodeRequest Endian sampleBadReq

/-- A reply value carrying stale state (non-zero error, old handle)
from a previous iteration of the loop. -/
def staleReply : nbdReply := ⟨NBD_REPLY_MAGIC, 1, [9, 9, 9, 9, 9, 9, 9, 9]⟩

/-! ### Claims -/

/-- Claim C1: for every request of type READ, WRITE, FLUSH or TRIM
that the protocol loop dispatches (for WRITE: whose payload read
succeeds, so that a reply is produced), the reply header written back
to the channel carries a handle equal byte-for-byte to the handle of
the triggering request: bytes 8..15 of the emitted reply header are
exactly `request.handle`, and the reply value itself carries that
handle. -/
theorem reply_handle_echoes_request (bd : BuseInterface) (reply0 : nbdReply)
    (input buf rest : List Nat) (req : nbdRequest)
    (h1 : readBytes 28 input = some (buf, rest))
    (h2 : decodeRequest Endian buf = some req)
    (hty : req.type = NBD_CMD_READ ∨ req.type = NBD_CMD_WRITE ∨
      req.type = NBD_CMD_FLUSH ∨ req.type = NBD_CMD_TRIM)
    (hpay : req.type = NBD_CMD_WRITE → req.length ≤ rest.length) :
    ∃ e tail rest' reply',
      connectStep bd reply0 input =
        StepResult.next
          (encodeReply Endian ⟨reply0.magic, e, req.handle⟩ ++ tail)
          rest' reply' ∧
      ((encodeReply Endian ⟨reply0.magic, e, req.handle⟩ ++ tail).drop 8).take 8 =
        req.handle ∧
      reply'.handle = req.handle := by
  have hh : req.handle.length = 8 := decodeRequest_handle_length _ _ _ h2
  rcases hty with ht | ht | ht | ht
  · exact ⟨if (bd.readAt req.from_ req.length).2 then 0 else 1,
      (bd.readAt req.from_ req.length).1, rest,
      ⟨reply0.magic, if (bd.readAt req.from_ req.length).2 then 0 else 1,
        req.handle⟩,
      connectStep_read_eq bd reply0 input buf rest req h1 h2 ht,
      encodeReply_handle_bytes _ _ hh, rfl⟩
  · refine ⟨if bd.writeAt (rest.take req.length) req.from_ then 0 else 1, [],
      rest.drop req.length,
      ⟨reply0.magic, if bd.writeAt (rest.take req.length) req.from_ then 0 else 1,
        req.handle⟩,
      ?_, encodeReply_handle_bytes _ _ hh, rfl⟩
    rw [List.append_nil]
    exact connectStep_write_next bd reply0 input buf rest req h1 h2 ht (hpay ht)
  · refine ⟨if bd.flush then 0 else 1, [], rest,
      ⟨reply0.magic, if bd.flush then 0 else 1, req.handle⟩,
      ?_, encodeReply_handle_bytes _ _ hh, rfl⟩
    rw [List.append_nil]
    exact connectStep_flush_eq bd reply0 input buf rest req h1 h2 ht
  · refine ⟨if bd.trim req.from_ req.length then 0 else 1, [], rest,
      ⟨reply0.magic, if bd.trim req.from_ req.length then 0 else 1, req.handle⟩,
      ?_, encodeReply_handle_bytes _ _ hh, rfl⟩
    rw [List.append_nil]
    exact connectStep_trim_eq bd reply0 input buf rest req h1 h2 ht

theorem reply_handle_echoes_request_w :
    ∃ e tail rest' reply',
      connectStep sampleDriver staleReply sampleFlushInput =
        StepResult.next
          (encodeReply Endian ⟨staleReply.magic, e, sampleFlushReq.handle⟩ ++ tail)
          rest' reply' ∧
      ((encodeReply Endian ⟨staleReply.magic, e, sampleFlushReq.handle⟩ ++
          tail).drop 8).take 8 = sampleFlushReq.handle ∧
      reply'.handle = sampleFlushReq.handle :=
  reply_handle_echoes_request sampleDriver staleReply sampleFlushInput
    sampleFlushInput [] sampleFlushReq (by decide) (by decide) (by decide)
    (by decide)

/-- Claim C2: for a READ request whose backend `ReadAt` call
succeeds, the READ handler emits on the channel exactly the encoded
reply header with error field `0`, immediately followed by the exact
contents of the buffer the backend filled, in that order (and the
handler reports no fatal error). -/
theorem read_success_emits_header_then_chunk (bd : BuseInterface)
    (rest : List Nat) (req : nbdRequest) (m : Nat) (hdl : List Nat)
    (hok : (bd.readAt req.from_ req.length).2 = true) :
    opDeviceRead bd rest req ⟨m, 0, hdl⟩ =
      ⟨encodeReply Endian ⟨m, 0, hdl⟩ ++ (bd.readAt req.from_ req.length).1,
        rest, ⟨m, 0, hdl⟩, false⟩ := by
  simp [opDeviceRead, hok]

theorem read_success_emits_header_then_chunk_w :
    opDeviceRead sampleDriver [] sampleReadReq
        ⟨NBD_REPLY_MAGIC, 0, [1, 2, 3, 4, 5, 6, 7, 8]⟩ =
      ⟨encodeReply Endian ⟨NBD_REPLY_MAGIC, 0, [1, 2, 3, 4, 5, 6, 7, 8]⟩ ++
          (sampleDriver.readAt sampleReadReq.from_ sampleReadReq.length).1,
        [], ⟨NBD_REPLY_MAGIC, 0, [1, 2, 3, 4, 5, 6, 7, 8]⟩, false⟩ :=
  read_success_emits_header_then_chunk sampleDriver [] sampleReadReq
    NBD_REPLY_MAGIC [1, 2, 3, 4, 5, 6, 7, 8] (by decide)

/-- Claim C3: for every dispatched READ, WRITE, FLUSH or TRIM request
(for WRITE: with its payload available), the emitted reply header's
error field is non-zero if and only if the backend call invoked for
that request failed.  The incoming reply value `reply0` is arbitrary
— in particular its error field may hold a stale non-zero value from
an earlier request — and does not influence the emitted error, and
the step result is `next`: the loop continues serving subsequent
requests. -/
theorem reply_error_iff_backend_failure (bd : BuseInterface) (reply0 : nbdReply)
    (input buf rest : List Nat) (req : nbdRequest)
    (h1 : readBytes 28 input = some (buf, rest))
    (h2 : decodeRequest Endian buf = some req)
    (hty : req.type = NBD_CMD_READ ∨ req.type = NBD_CMD_WRITE ∨
      req.type = NBD_CMD_FLUSH ∨ req.type = NBD_CMD_TRIM)
    (hpay : req.type = NBD_CMD_WRITE → req.length ≤ rest.length) :
    ∃ tail rest' reply',
      connectStep bd reply0 input =
        StepResult.next
          (encodeReply Endian
            ⟨reply0.magic, if backendCallFails bd req rest then 1 else 0,
              req.handle⟩ ++ tail)
          rest' reply' ∧
      (((if backendCallFails bd req rest then (1 : Nat) else 0) ≠ 0) ↔
        backendCallFails bd req rest = true) := by
  rcases hty with ht | ht | ht | ht
  · refine ⟨(bd.readAt req.from_ req.length).1, rest,
      ⟨reply0.magic, if (bd.readAt req.from_ req.length).2 then 0 else 1,
        req.handle⟩, ?_, ?_⟩
    · rw [connectStep_read_eq bd reply0 input buf rest req h1 h2 ht]
      cases hres : (bd.readAt req.from_ req.length).2 <;>
        simp [backendCallFails, ht, hres, NBD_CMD_READ, NBD_CMD_WRITE,
          NBD_CMD_FLUSH, NBD_CMD_TRIM]
    · cases hres : backendCallFails bd req rest <;> simp [hres]
  · refine ⟨[], rest.drop req.length,
      ⟨reply0.magic, if bd.writeAt (rest.take req.length) req.from_ then 0 else 1,
        req.handle⟩, ?_, ?_⟩
    · rw [connectStep_write_next bd reply0 input buf rest req h1 h2 ht (hpay ht)]
      cases hres : bd.writeAt (rest.take req.length) req.from_ <;>
        simp [backendCallFails, ht, hres, NBD_CMD_READ, NBD_CMD_WRITE,
          NBD_CMD_FLUSH, NBD_CMD_TRIM]
    · cases hres : backendCallFails bd req rest <;> simp [hres]
  · refine ⟨[], rest,
      ⟨reply0.magic, if bd.flush then 0 else 1, req.handle⟩, ?_, ?_⟩
    · rw [connectStep_flush_eq bd reply0 input buf rest req h1 h2 ht]
      cases hres : bd.flush <;>
        simp [backendCallFails, ht, hres, NBD_CMD_READ, NBD_CMD_WRITE,
          NBD_CMD_FLUSH, NBD_CMD_TRIM]
    · cases hres : backendCallFails bd req rest <;> simp [hres]
  · refine ⟨[], rest,
      ⟨reply0.magic, if bd.trim req.from_ req.length then 0 else 1,
        req.handle⟩, ?_, ?_⟩
    · rw [connectStep_trim_eq bd reply0 input buf rest req h1 h2 ht]
      cases hres : bd.trim req.from_ req.length <;>
        simp [backendCallFails, ht, hres, NBD_CMD_READ, NBD_CMD_WRITE,
          NBD_CMD_FLUSH, NBD_CMD_TRIM]
    · cases hres : backendCallFails bd req rest <;> simp [hres]

theorem reply_error_iff_backend_failure_w :
    ∃ tail rest' reply',
      connectStep sampleDriver staleReply sampleFlushInput =
        StepResult.next
          (encodeReply Endian
            ⟨staleReply.magic,
              if backendCallFails sampleDriver sampleFlushReq [] then 1 else 0,
              sampleFlushReq.handle⟩ ++ tail)
          rest' reply' ∧
      (((if backendCallFails sampleDriver sampleFlushReq [] then (1 : Nat) else 0) ≠ 0) ↔
        backendCallFails sampleDriver sampleFlushReq [] = true) :=
  reply_error_iff_backend_failure sampleDriver staleReply sampleFlushInput
    sampleFlushInput [] sampleFlushReq (by decide) (by decide) (by decide)
    (by decide)

/-- Claim C4: for a WRITE request the handler first reads exactly
`length` payload bytes from the channel into the buffer and only then
invokes the backend `WriteAt` with exactly those bytes (consuming them
from the stream); if the payload read fails, the handler's error is
fatal: the loop step is `fatal`, `Connect` returns, and its deferred
`Disconnect` performs the full teardown — disconnect signal, queue and
socket clearing, closing both socketpair ends and the device
descriptor — exactly once each. -/
theorem write_reads_payload_then_backend_else_fatal (bd : BuseInterface)
    (reply0 : nbdReply) (input buf rest : List Nat) (req : nbdRequest)
    (h1 : readBytes 28 input = some (buf, rest))
    (h2 : decodeRequest Endian buf = some req)
    (ht : req.type = NBD_CMD_WRITE) :
    (req.length ≤ rest.length →
      connectStep bd reply0 input =
        StepResult.next
          (encodeReply Endian
            ⟨reply0.magic,
              if bd.writeAt (rest.take req.length) req.from_ then 0 else 1,
              req.handle⟩)
          (rest.drop req.length)
          ⟨reply0.magic,
            if bd.writeAt (rest.take req.length) req.from_ then 0 else 1,
            req.handle⟩) ∧
    (rest.length < req.length →
      connectStep bd reply0 input = StepResult.fatal [] ∧
      ∃ ts, disconnectOp connectTeardown0 = some ts ∧
        ts.signalsSent = 1 ∧ ts.clearQueCalls = 1 ∧ ts.clearSockCalls = 1 ∧
        ts.closeSock0Calls = 1 ∧ ts.closeSock1Calls = 1 ∧
        ts.closeDevCalls = 1) := by
  constructor
  · intro hp
    exact connectStep_write_next bd reply0 input buf rest req h1 h2 ht hp
  · intro hp
    exact ⟨connectStep_write_fatal bd reply0 input buf rest req h1 h2 ht hp,
      ⟨0, 1, 1, 1, 1, 1, 1⟩, by decide, rfl, rfl, rfl, rfl, rfl, rfl⟩

theorem write_reads_payload_then_backend_else_fatal_w :
    connectStep sampleDriver staleReply sampleWriteInput = StepResult.fatal [] ∧
    ∃ ts, disconnectOp connectTeardown0 = some ts ∧
      ts.signalsSent = 1 ∧ ts.clearQueCalls = 1 ∧ ts.clearSockCalls = 1 ∧
      ts.closeSock0Calls = 1 ∧ ts.closeSock1Calls = 1 ∧
      ts.closeDevCalls = 1 :=
  (write_reads_payload_then_backend_else_fatal sampleDriver staleReply
    sampleWriteInput sampleWriteInput [] sampleWriteReq (by decide) (by decide)
    (by decide)).2 (by decide)

/-- Claim C5: encoding a well-formed request header through the wire
codec in the fixed wire byte order and then decoding the resulting
byte buffer yields the request back unchanged. -/
theorem request_codec_roundtrip (r : nbdRequest) (h : wfRequest r) :
    decodeRequest Endian (encodeRequest Endian r) = some r :=
  request_roundtrip Endian r h

theorem request_codec_roundtrip_w :
    decodeRequest Endian (encodeRequest Endian sampleWriteReq) =
      some sampleWriteReq :=
  request_codec_roundtrip sampleWriteReq
    ⟨by decide, by decide, by decide, by decide, by decide, by decide⟩

/-- Claim C6: the wire byte order is one single fixed order
independent of the host architecture: the runtime host-endianness
probe assigns the same byte order in both of its branches, so request
decoding and reply encoding behave identically on little-endian
(probed byte 1) and big-endian (probed byte 0) hosts, for every
field in both directions. -/
theorem wire_byte_order_fixed_and_host_independent :
    (∀ b, endianProbe b = ByteOrder.bigEndian) ∧
    (∀ b1 b2 r, encodeRequest (endianProbe b1) r = encodeRequest (endianProbe b2) r) ∧
    (∀ b1 b2 bs, decodeRequest (endianProbe b1) bs = decodeRequest (endianProbe b2) bs) ∧
    (∀ b1 b2 rep, encodeReply (endianProbe b1) rep = encodeReply (endianProbe b2) rep) := by
  refine ⟨endianProbe_const, ?_, ?_, ?_⟩ <;>
    intro b1 b2 x <;> rw [endianProbe_const b1, endianProbe_const b2]

/-- Claim C7: a decoded request whose type is not one of the five
known operation codes is a fatal dispatch error: for every type value
greater than 4 the lookup into the five-entry dispatch table falls
outside the table (`none`), and the loop step is `panicked` (the Go
array index panics) — the request is not silently skipped. -/
theorem unknown_type_is_not_dispatched (bd : BuseInterface) (reply0 : nbdReply)
    (input buf rest : List Nat) (req : nbdRequest)
    (h1 : readBytes 28 input = some (buf, rest))
    (h2 : decodeRequest Endian buf = some req)
    (ht : 4 < req.type) :
    opTable.get? req.type = none ∧
    connectStep bd reply0 input = StepResult.panicked := by
  have hnone : opTable.get? req.type = none := by
    rw [List.get?_eq_none]
    simp only [opTable, List.length]
    omega
  refine ⟨hnone, ?_⟩
  simp only [connectStep, h1, h2, hnone]

theorem unknown_type_is_not_dispatched_w :
    opTable.get? sampleBadReq.type = none ∧
    connectStep sampleDriver staleReply sampleBadInput = StepResult.panicked :=
  unknown_type_is_not_dispatched sampleDriver staleReply sampleBadInput
    sampleBadInput [] sampleBadReq (by decide) (by decide) (by decide)

/-! ### The ioctl wrapper and device lifecycle
(`ioctl`, `startNBDClient`, `CreateDevice` of buse.go) -/

/-- Outcome of one call through the `ioctl` helper of buse.go. -/
inductive IoctlOutcome where
  | ok : IoctlOutcome
  /-- a non-zero errno: the helper calls `log.Fatalf`, which
  terminates the whole process. -/
  | fatalExit : Nat → IoctlOutcome
deriving DecidableEq

/-- The `ioctl` helper: `syscall.Syscall(SYS_IOCTL, fd, op, arg)`;
whenever the returned errno is non-zero it calls `log.Fatalf`. -/
def ioctl (errno : Nat) : IoctlOutcome :=
  if errno = 0 then IoctlOutcome.ok else IoctlOutcome.fatalExit errno

/-- Kernel responses (errno values) to the control calls
`startNBDClient` issues, in program order. -/
structure StartEnv where
  setSockErrno : Nat
  setFlagsErrno : Nat
deriving DecidableEq

/-- How far `startNBDClient` gets. -/
inductive StartResult where
  /-- both ioctls returned 0: `NBD_DO_IT` is launched and the client
  blocks on the disconnect channel while the loop serves requests. -/
  | serving : StartResult
  /-- the call to `log.Fatalf` ran inside the `ioctl` helper: the process exited
  before the device could serve anything. -/
  | processExit : StartResult
deriving DecidableEq

/-- Model of `startNBDClient`: `ioctl(NBD_SET_SOCK, socketPair[1])`,
then `ioctl(NBD_SET_FLAGS, NBD_FLAG_SEND_TRIM)` — both through the
fatal `ioctl` wrapper — then `go ioctl(NBD_DO_IT, 0)` and a blocking
receive on the disconnect channel. -/
def startNBDClient (env : StartEnv) : StartResult :=
  match ioctl env.setSockErrno with
  | IoctlOutcome.fatalExit _ => StartResult.processExit
  | IoctlOutcome.ok =>
    match ioctl env.setFlagsErrno with
    | IoctlOutcome.fatalExit _ => StartResult.processExit
    | IoctlOutcome.ok => StartResult.serving

/-- Claim C8 (refuted by the code): the capability-flags control call
`NBD_SET_FLAGS` is issued through the fatal `ioctl` wrapper, so its
failure is fatal: with `NBD_SET_SOCK` accepted and `NBD_SET_FLAGS`
rejected with errno 22 (EINVAL, as an older kernel would), the
process is terminated by `log.Fatalf` instead of tolerating the
failure and proceeding to serve requests — even though the code's own
comment says the call "could be ignored". -/
theorem set_flags_failure_is_fatal :
    startNBDClient ⟨0, 22⟩ = StartResult.processExit ∧
    startNBDClient ⟨0, 22⟩ ≠ StartResult.serving ∧
    startNBDClient ⟨0, 0⟩ = StartResult.serving := by
  decide

/-- Environment a `CreateDevice` run faces: whether `socketpair` and
`os.OpenFile` succeed, and the errno of each of the three ioctls. -/
structure CreateEnv where
  socketpairOk : Bool
  openOk : Bool
  setSizeErrno : Nat
  clearQueErrno : Nat
  clearSockErrno : Nat
deriving DecidableEq

/-- How `CreateDevice` ends. -/
inductive CreateResult where
  /-- a fully built `*BuseDevice` and a nil error are returned. -/
  | ok : CreateResult
  /-- a nil device and a non-nil error are returned to the caller. -/
  | err : CreateResult
  /-- the call to `log.Fatalf` inside the `ioctl` helper terminated the process;
  nothing is returned to the caller. -/
  | processExit : CreateResult
deriving DecidableEq

/-- Model of `CreateDevice`: `syscall.Socketpair` (error returned to
the caller on failure), `os.OpenFile` of the device node (error
returned to the caller on failure), then the `NBD_SET_SIZE`,
`NBD_CLEAR_QUE` and `NBD_CLEAR_SOCK` control calls through the fatal
`ioctl` wrapper, then the dispatch table and the disconnect channel
are built and the device is returned. -/
def CreateDevice (env : CreateEnv) : CreateResult :=
  if !env.socketpairOk then CreateResult.err
  else if !env.openOk then CreateResult.err
  else match ioctl env.setSizeErrno with
  | IoctlOutcome.fatalExit _ => CreateResult.processExit
  | IoctlOutcome.ok =>
    match ioctl env.clearQueErrno with
    | IoctlOutcome.fatalExit _ => CreateResult.processExit
    | IoctlOutcome.ok =>
      match ioctl env.clearSockErrno with
      | IoctlOutcome.fatalExit _ => CreateResult.processExit
      | IoctlOutcome.ok => CreateResult.ok

/-- Claim C9 counterexample: with the socketpair and the device-node
open succeeding and the kernel rejecting the size-registration
control call `NBD_SET_SIZE` with errno 22, construction does not
report the error to the caller of `CreateDevice` — the fatal `ioctl`
wrapper terminates the process instead. -/
theorem createDevice_size_rejection_not_reported :
    CreateDevice ⟨true, true, 22, 0, 0⟩ = CreateResult.processExit ∧
    CreateDevice ⟨true, true, 22, 0, 0⟩ ≠ CreateResult.err := by
  decide

/-- Claim C9 (amended): if the device node cannot be opened (or the
socketpair call fails), construction returns an error to the caller
and no device; if the size-registration control call is rejected, the
process is terminated by `log.Fatalf` — the error is not reported to
the caller; and a usable device value is returned exactly when every
construction step succeeded, so no partially initialized usable
device is ever returned. -/
theorem createDevice_failure_behavior (env : CreateEnv) :
    (env.openOk = false → CreateDevice env = CreateResult.err) ∧
    (env.socketpairOk = true → env.openOk = true → env.setSizeErrno ≠ 0 →
      CreateDevice env = CreateResult.processExit) ∧
    (CreateDevice env = CreateResult.ok ↔
      env.socketpairOk = true ∧ env.openOk = true ∧ env.setSizeErrno = 0 ∧
      env.clearQueErrno = 0 ∧ env.clearSockErrno = 0) := by
  obtain ⟨sp, op, s, q, k⟩ := env
  by_cases hs : s = 0 <;> by_cases hq : q = 0 <;> by_cases hk : k = 0 <;>
    cases sp <;> cases op <;>
    simp [CreateDevice, ioctl, hs, hq, hk]

theorem createDevice_failure_behavior_w :
    CreateDevice ⟨true, false, 0, 0, 0⟩ = CreateResult.err :=
  (createDevice_failure_behavior ⟨true, false, 0, 0, 0⟩).1 rfl

/-- Claim C10 (refuted by the code): nothing guards `Disconnect`
against a second invocation.  The disconnect channel is unbuffered
and `startNBDClient` performs exactly one receive on it per connect
cycle, so when the loop's deferred `Disconnect` and an external
`Disconnect` call race, whichever sends second blocks forever on
`bd.disconnect <- 1`: after the first `Disconnect` completes the full
teardown (each action exactly once), a second `disconnectOp` does not
complete — contradicting the claim that neither path blocks
forever. -/
theorem second_disconnect_blocks_forever :
    ∃ ts, disconnectOp connectTeardown0 = some ts ∧
      ts.signalsSent = 1 ∧ ts.clearQueCalls = 1 ∧ ts.clearSockCalls = 1 ∧
      ts.closeSock0Calls = 1 ∧ ts.closeSock1Calls = 1 ∧
      ts.closeDevCalls = 1 ∧ disconnectOp ts = none :=
  ⟨⟨0, 1, 1, 1, 1, 1, 1⟩, by decide, rfl, rfl, rfl, rfl, rfl, rfl, by decide⟩

end Buse
